import Mathlib

/-!
Verification of the extraction and validation stage of the air-pollution ETL
pipeline (`plugins/pipelines/air_pollution/extract.py` and
`plugins/pipelines/air_pollution/schemas.py`).

Modelling conventions:
* JSON-like Python values (the raw API records, the payloads written to S3)
  are modelled by the inductive type `JVal`; Python `float` is modelled by `ℚ`.
* The wall-clock timestamp `datetime.now(timezone.utc).isoformat()` is lifted
  to an explicit `now : String` parameter.
* Pydantic `model_validate` (lax mode, as configured by
  `ConfigDict(strict=False, extra="ignore")` in `schemas.py`) is modelled by
  `model_validate` below; the structured contents of
  pydantic error objects are abstracted to descriptive strings (no claim
  inspects error contents).  String-to-number coercion models pydantic lax
  mode for plain decimal literals (exponent forms and surrounding whitespace
  are not modelled; no claim depends on them).
* S3 side effects are modelled by an explicit, ordered event trace
  (`S3Event`), and the store itself by an association list for the
  idempotence claims about deletion.
-/

/-- JSON-like value, modelling the Python dict/list/scalar values that flow
through the pipeline.  Python `float` is modelled by `ℚ`. -/
inductive JVal where
  | null : JVal
  | bool : Bool → JVal
  | int : Int → JVal
  | float : ℚ → JVal
  | str : String → JVal
  | arr : List JVal → JVal
  | obj : List (String × JVal) → JVal

/-- Field lookup in a JSON object body, modelling Python `dict.get` /
pydantic field extraction (dict keys are unique in Python, so first match). -/
def getField (fs : List (String × JVal)) (k : String) : Option JVal :=
  (fs.find? (fun p => p.1 == k)).map (fun p => p.2)

/-- Accumulate decimal digits into a natural number. -/
def natOfDigits (cs : List Char) : Nat :=
  cs.foldl (fun a c => a * 10 + (c.toNat - 48)) 0

/-- Strip an optional leading sign, returning whether the number is negative
and the remaining characters. -/
def splitSign : List Char → Bool × List Char
  | [] => (false, [])
  | c :: cs =>
    if c = '-' then (true, cs)
    else if c = '+' then (false, cs)
    else (false, c :: cs)

/-- Parse a non-empty run of decimal digits. -/
def parseDigits (cs : List Char) : Option Nat :=
  if cs.isEmpty then none
  else if cs.all Char.isDigit then some (natOfDigits cs) else none

/-- Models pydantic lax parsing of a string as an integer: optional sign then
decimal digits; anything else is rejected. -/
def parseIntStr (s : String) : Option Int :=
  let p := splitSign s.toList
  match parseDigits p.2 with
  | some n => some (if p.1 then -(n : Int) else (n : Int))
  | none => none

/-- Models pydantic lax parsing of a string as a float: optional sign, then a
decimal literal `d*`, `d*.d*` (with at least one digit overall). -/
def parseFloatStr (s : String) : Option ℚ :=
  let p := splitSign s.toList
  let ip := p.2.takeWhile Char.isDigit
  let rest := p.2.dropWhile Char.isDigit
  let v : Option ℚ :=
    match rest with
    | [] => if ip.isEmpty then none else some ((natOfDigits ip : ℚ))
    | c :: frac =>
      if c = '.' then
        if frac.all Char.isDigit ∧ ¬(ip.isEmpty ∧ frac.isEmpty) then
          some ((natOfDigits ip : ℚ) + (natOfDigits frac : ℚ) / ((10 : ℚ) ^ frac.length))
        else none
      else none
  v.map (fun q => if p.1 then -q else q)

/-- Models pydantic v2 lax coercion of an input value to an `int` field:
ints pass through, integral floats are truncated to their value, numeric
strings are parsed, and `bool`, `null`, arrays and objects are rejected. -/
def coerceInt : JVal → Option Int
  | .int n => some n
  | .float q => if q.den = 1 then some q.num else none
  | .str s => parseIntStr s
  | _ => none

/-- Models pydantic v2 lax coercion of an input value to a `float` field:
ints and floats pass through, numeric strings are parsed, and `bool`,
`null`, arrays and objects are rejected. -/
def coerceFloat : JVal → Option ℚ
  | .int n => some ((n : ℚ))
  | .float q => some q
  | .str s => parseFloatStr s
  | _ => none

/-- Normalized `_MainInfo` value (`schemas.py`): the overall AQI rating. -/
structure MainInfo where
  aqi : Int
deriving Repr, DecidableEq

/-- Normalized `_AqiQualityComponents` value (`schemas.py`): the eight
pollutant concentrations. -/
structure AqiQualityComponents where
  co : ℚ
  no : ℚ
  no2 : ℚ
  o3 : ℚ
  so2 : ℚ
  pm2_5 : ℚ
  pm10 : ℚ
  nh3 : ℚ
deriving Repr, DecidableEq

/-- Normalized `AirPollutionRecord` value (`schemas.py`): timestamp, main AQI
information and pollutant components. -/
structure AirPollutionRecordData where
  dt : Int
  main : MainInfo
  components : AqiQualityComponents
deriving Repr, DecidableEq

/-- Validate a required integer field: present, coercible, within `[lo, hi]`
(the `Field(..., ge=lo, le=hi)` constraint in `schemas.py`). -/
def checkInt (name : String) (v : Option JVal) (lo hi : Int) : Except String Int :=
  match v with
  | none => .error (name ++ ": field required")
  | some jv =>
    match coerceInt jv with
    | none => .error (name ++ ": input should be a valid integer")
    | some n =>
      if lo ≤ n ∧ n ≤ hi then .ok n
      else .error (name ++ ": value out of bounds")

/-- Validate a required float field: present, coercible, non-negative (the
`Field(..., ge=0)` constraint together with the `check_non_negative`
validator in `schemas.py`). -/
def checkFloat (name : String) (v : Option JVal) : Except String ℚ :=
  match v with
  | none => .error (name ++ ": field required")
  | some jv =>
    match coerceFloat jv with
    | none => .error (name ++ ": input should be a valid number")
    | some q =>
      if 0 ≤ q then .ok q
      else .error ("Value for " ++ name ++ " cannot be negative.")

/-- Error list of a single-field check. -/
def errs1 {α : Type} : Except String α → List String
  | .ok _ => []
  | .error e => [e]

/-- Error list of a multi-field check. -/
def errsL {α : Type} : Except (List String) α → List String
  | .ok _ => []
  | .error es => es

/-- True when the check succeeded. -/
def exOk {ε α : Type} : Except ε α → Bool
  | .ok _ => true
  | .error _ => false

/-- Validate the nested `main` sub-model (`_MainInfo` in `schemas.py`):
a required object whose `aqi` field is an integer in `[1, 5]`. -/
def checkMain : Option JVal → Except String MainInfo
  | none => .error "main: field required"
  | some (.obj ms) => (checkInt "main.aqi" (getField ms "aqi") 1 5).map MainInfo.mk
  | some _ => .error "main: input should be a valid dictionary"

/-- Combine the eight pollutant field checks of `_AqiQualityComponents`,
succeeding only when all succeed and otherwise collecting every error
(pydantic reports all failing fields of a model). -/
def combine8 (a b c d e f g h : Except String ℚ) : Except (List String) AqiQualityComponents :=
  match a, b, c, d, e, f, g, h with
  | .ok va, .ok vb, .ok vc, .ok vd, .ok ve, .ok vf, .ok vg, .ok vh =>
    .ok ⟨va, vb, vc, vd, ve, vf, vg, vh⟩
  | _, _, _, _, _, _, _, _ =>
    .error (errs1 a ++ errs1 b ++ errs1 c ++ errs1 d ++ errs1 e ++ errs1 f ++ errs1 g ++ errs1 h)

/-- Validate the nested `components` sub-model (`_AqiQualityComponents` in
`schemas.py`): a required object with eight required non-negative floats. -/
def checkComponents : Option JVal → Except (List String) AqiQualityComponents
  | none => .error ["components: field required"]
  | some (.obj cs) =>
    combine8
      (checkFloat "co" (getField cs "co"))
      (checkFloat "no" (getField cs "no"))
      (checkFloat "no2" (getField cs "no2"))
      (checkFloat "o3" (getField cs "o3"))
      (checkFloat "so2" (getField cs "so2"))
      (checkFloat "pm2_5" (getField cs "pm2_5"))
      (checkFloat "pm10" (getField cs "pm10"))
      (checkFloat "nh3" (getField cs "nh3"))
  | some _ => .error ["components: input should be a valid dictionary"]

/-- Models `AirPollutionRecord.model_validate` (`schemas.py`): a record is an
object with a required `dt` integer in `[946681200, 2524604400]`, a required
`main` sub-model and a required `components` sub-model; unknown extra fields
are ignored (`extra="ignore"`, also pydantic's default). -/
def model_validate (v : JVal) : Except (List String) AirPollutionRecordData :=
  match v with
  | .obj fs =>
    match checkInt "dt" (getField fs "dt") 946681200 2524604400,
          checkMain (getField fs "main"),
          checkComponents (getField fs "components") with
    | .ok d, .ok m, .ok c => .ok ⟨d, m, c⟩
    | dtR, mainR, compR => .error (errs1 dtR ++ errs1 mainR ++ errsL compR)
  | _ => .error ["Input should be a valid dictionary"]

/-- Quarantine entry built in `validate_data_batch` (`extract.py`) for one
failed record: the validation errors, the original raw record verbatim, and
the shared batch validation timestamp. -/
structure QuarantineEntry where
  error : List String
  raw : JVal
  ts : String

/-- Validation output including valid data, quarantine payload, and DQ status
(the `ValidationResult` dataclass in `extract.py`).  The valid records are
kept as normalized values; the orchestrator serializes them
(`model_dump(mode="json")` is modelled by `recordToJson` below). -/
structure ValidationResult where
  valid_records : List AirPollutionRecordData
  quarantine_records : List QuarantineEntry
  ts_validation : String
  is_critical_failure : Bool
  failure_reason : String

/-- Per-record loop of `validate_data_batch` (`extract.py`): each record goes
to the valid sequence on success and to the quarantine sequence (wrapped into
a `QuarantineEntry` with the shared timestamp) on failure, in input order. -/
def processRecords (now : String) : List JVal → List AirPollutionRecordData × List QuarantineEntry
  | [] => ([], [])
  | r :: rs =>
    let rest := processRecords now rs
    match model_validate r with
    | .ok m => (m :: rest.1, rest.2)
    | .error errs => (rest.1, ⟨errs, r, now⟩ :: rest.2)

/-- Zero-pad a natural number to at least two digits, modelling Python
`f"{n:02d}"` for non-negative `n`. -/
def pad2 (n : Nat) : String :=
  if n < 10 then "0" ++ toString n else toString n

/-- Round a rational to the nearest integer, ties to even, modelling the
rounding used by Python fixed-point float formatting. -/
def roundHalfEven (q : ℚ) : ℤ :=
  let f : ℤ := ⌊q⌋
  let r : ℚ := q - (f : ℚ)
  if r < 1 / 2 then f
  else if (1 : ℚ) / 2 < r then f + 1
  else if f % 2 = 0 then f else f + 1

/-- Fixed two-decimal rendering of a rational, modelling Python
`f"{x:.2f}"`. -/
def fmt2 (q : ℚ) : String :=
  let n : ℤ := roundHalfEven (q * 100)
  let a : ℕ := n.natAbs
  (if n < 0 then "-" else "") ++ toString (a / 100) ++ "." ++ pad2 (a % 100)

/-- Decimal expansion digits of the fraction `r / d`, up to the given fuel,
stopping when the remainder reaches zero. -/
def fracDigits : Nat → Nat → Nat → String
  | 0, _, _ => ""
  | _, 0, _ => ""
  | fuel + 1, r, d =>
    let r10 := r * 10
    toString (r10 / d) ++ fracDigits fuel (r10 % d) d

/-- Decimal rendering of a rational, modelling Python `str()` of a float for
values with a short decimal expansion (e.g. `20.0` renders as `"20.0"`);
non-terminating expansions are cut at 17 digits. -/
def fmtPyFloat (q : ℚ) : String :=
  let a : ℕ := q.num.natAbs
  let d : ℕ := q.den
  let frac : ℕ := a % d
  (if q < 0 then "-" else "") ++ toString (a / d) ++ "." ++
    (if frac = 0 then "0" else fracDigits 17 frac d)

/-- Critical-failure reason template of `validate_data_batch` (`extract.py`):
a single fixed wording used for every critical batch. -/
def mkReason (failure_rate threshold_percent : ℚ) (min_failed_items : Int) : String :=
  "Threshold exceeded: " ++ fmt2 failure_rate ++ "% failures (Threshold: " ++
    fmtPyFloat threshold_percent ++ "%, MinItems: " ++ toString min_failed_items ++ ")"

/-- Validation failure rate of `validate_data_batch` (`extract.py`):
`failure_rate = (failed_count / total_count) * 100` (float division). -/
def failureRate (failed total : Nat) : ℚ :=
  (failed : ℚ) / (total : ℚ) * 100

/-- Data quality gate of `validate_data_batch` (`extract.py`):
`is_critical = (is_failure_rate_high and is_absolute_count_high) or
is_total_failure`, where `is_failure_rate_high = failure_rate >
threshold_percent`, `is_absolute_count_high = failed_count >=
min_failed_items` and `is_total_failure = (len(valid_records) == 0)`. -/
def isCriticalGate (validCount failedCount totalCount : Nat) (threshold_percent : ℚ)
    (min_failed_items : Int) : Bool :=
  (decide (failureRate failedCount totalCount > threshold_percent) &&
      decide ((failedCount : Int) ≥ min_failed_items)) ||
    decide (validCount = 0)

/-- Models `validate_data_batch` (`extract.py`): per-record validation, then
the data quality gate.  The wall-clock timestamp is passed in as `now`. -/
def validate_data_batch (raw_records : List JVal) (threshold_percent : ℚ)
    (min_failed_items : Int) (now : String) : ValidationResult :=
  if raw_records.length = 0 then
    { valid_records := [], quarantine_records := [], ts_validation := now,
      is_critical_failure := false, failure_reason := "" }
  else
    let pair := processRecords now raw_records
    let valid_records := pair.1
    let quarantine_records := pair.2
    let failure_rate : ℚ := failureRate quarantine_records.length raw_records.length
    let is_critical := isCriticalGate valid_records.length quarantine_records.length
      raw_records.length threshold_percent min_failed_items
    let reason :=
      if is_critical then mkReason failure_rate threshold_percent min_failed_items else ""
    { valid_records := valid_records, quarantine_records := quarantine_records,
      ts_validation := now, is_critical_failure := is_critical, failure_reason := reason }

/-- Unfolding of `validate_data_batch` on a non-empty batch. -/
theorem validate_data_batch_of_ne_nil (raw : List JVal) (t : ℚ) (m : Int) (now : String)
    (h : raw ≠ []) :
    validate_data_batch raw t m now =
      { valid_records := (processRecords now raw).1,
        quarantine_records := (processRecords now raw).2,
        ts_validation := now,
        is_critical_failure := isCriticalGate (processRecords now raw).1.length
          (processRecords now raw).2.length raw.length t m,
        failure_reason :=
          if isCriticalGate (processRecords now raw).1.length
              (processRecords now raw).2.length raw.length t m then
            mkReason (failureRate (processRecords now raw).2.length raw.length) t m
          else "" } := by
  unfold validate_data_batch
  rw [if_neg (by simpa using h)]

/-- Scheduling logical date, as consumed by `extract_and_store` (`extract.py`):
the calendar components used in the partition path and the epoch-second value
`int(logical_date.timestamp())`. -/
structure LogicalDate where
  year : Nat
  month : Nat
  day : Nat
  epochSeconds : Int

/-- Partitioned base path of `extract_and_store` (`extract.py`):
`city={city}/year={Y}/month={MM}/day={DD}/{epoch_seconds}.json`. -/
def basePath (city : String) (ld : LogicalDate) : String :=
  "city=" ++ city ++ "/year=" ++ toString ld.year ++ "/month=" ++ pad2 ld.month ++
    "/day=" ++ pad2 ld.day ++ "/" ++ toString ld.epochSeconds ++ ".json"

/-- Valid-data S3 key of `extract_and_store` (`extract.py`). -/
def validKey (city : String) (ld : LogicalDate) : String :=
  "bronze/air_pollution/" ++ basePath city ld

/-- Quarantine S3 key of `extract_and_store` (`extract.py`). -/
def quarantineKey (city : String) (ld : LogicalDate) : String :=
  "bronze/air_pollution_quarantine/" ++ basePath city ld

/-- Serialization of a normalized record back to JSON, modelling
`model_dump(mode="json")` on `AirPollutionRecord`. -/
def recordToJson (r : AirPollutionRecordData) : JVal :=
  .obj [("dt", .int r.dt),
        ("main", .obj [("aqi", .int r.main.aqi)]),
        ("components", .obj [
          ("co", .float r.components.co), ("no", .float r.components.no),
          ("no2", .float r.components.no2), ("o3", .float r.components.o3),
          ("so2", .float r.components.so2), ("pm2_5", .float r.components.pm2_5),
          ("pm10", .float r.components.pm10), ("nh3", .float r.components.nh3)])]

/-- Serialization of one quarantine entry as written inside the quarantine
payload (`extract.py`): `{"error": [...], "raw": {...}, "ts": ...}`. -/
def quarEntryToJson (e : QuarantineEntry) : JVal :=
  .obj [("error", .arr (e.error.map JVal.str)), ("raw", e.raw), ("ts", .str e.ts)]

/-- Quarantine payload built by `extract_and_store` (`extract.py`) when the
quarantine sequence is non-empty.  Note the `"partial_faiilure"` literal: it
is spelled exactly as in the source (and asserted verbatim by its tests). -/
def quarantinePayload (vr : ValidationResult) : JVal :=
  .obj [("metadata", .obj [
          ("status", .str (if vr.is_critical_failure then "critical_failure"
                           else "partial_faiilure")),
          ("failure_reason", .str vr.failure_reason),
          ("processed_at", .str vr.ts_validation)]),
        ("records", .arr (vr.quarantine_records.map quarEntryToJson))]

/-- Valid-data payload built by `extract_and_store` (`extract.py`):
`{"coord": data.get("coord"), "list": valid_records, "metadata":
{"status": "valid"}}` (a missing `coord` becomes JSON `null`). -/
def validPayload (data : List (String × JVal)) (vr : ValidationResult) : JVal :=
  .obj [("coord", (getField data "coord").getD .null),
        ("list", .arr (vr.valid_records.map recordToJson)),
        ("metadata", .obj [("status", .str "valid")])]

/-- Python truthiness on JSON-like values, modelling the `if not raw_list`
guard in `extract_and_store`. -/
def pyFalsy : JVal → Bool
  | .null => true
  | .bool b => !b
  | .int n => n == 0
  | .float q => q == 0
  | .str s => s.isEmpty
  | .arr xs => xs.isEmpty
  | .obj fs => fs.isEmpty

/-- S3 side effect emitted by the orchestrator, in order: a JSON write
(`save_dict_as_json`) or an object deletion (`delete_object`). -/
inductive S3Event where
  | put : String → JVal → S3Event
  | delete : String → S3Event

/-- Terminal outcome of one `extract_and_store` invocation: skip signal
(`AirflowSkipException`), fatal data-quality failure (`AirflowFailException`
carrying the reason), success returning the valid-data key, or the
out-of-model case of a truthy non-list `"list"` field (which the Python code
would mishandle in its validation loop; the API client never produces it). -/
inductive RunOutcome where
  | skipped : RunOutcome
  | failed : String → RunOutcome
  | succeeded : String → RunOutcome
  | nonListData : RunOutcome

/-- First side effect of `extract_and_store` (`extract.py`) after the gate:
write the quarantine payload when there are quarantined records, otherwise
delete any stale quarantine artifact at the same key. -/
def quarEvent (city : String) (ld : LogicalDate) (vr : ValidationResult) : S3Event :=
  if vr.quarantine_records.isEmpty then S3Event.delete (quarantineKey city ld)
  else S3Event.put (quarantineKey city ld) (quarantinePayload vr)

/-- Steps 4-7 of `extract_and_store` (`extract.py`), after the validation
gate has produced `vr`: quarantine write or delete, then either the fatal
critical-failure signal or the valid-data write and success. -/
def runGate (city : String) (data : List (String × JVal)) (ld : LogicalDate)
    (vr : ValidationResult) : RunOutcome × List S3Event :=
  if vr.is_critical_failure then (.failed vr.failure_reason, [quarEvent city ld vr])
  else (.succeeded (validKey city ld),
        [quarEvent city ld vr, S3Event.put (validKey city ld) (validPayload data vr)])

/-- Models `extract_and_store` (`extract.py`) after the API fetch: the fetch
result `data` is passed in (the HTTP call is an external collaborator), the
wall-clock validation timestamp is `now`, and the S3 side effects are
returned as an ordered event trace alongside the terminal outcome. -/
def extract_and_store (city : String) (data : List (String × JVal)) (ld : LogicalDate)
    (dq_threshold_percent : ℚ) (dq_min_failed_items : Int) (now : String) :
    RunOutcome × List S3Event :=
  match getField data "list" with
  | none => (.skipped, [])
  | some rl =>
    if pyFalsy rl then (.skipped, [])
    else
      match rl with
      | .arr raw_list =>
        runGate city data ld
          (validate_data_batch raw_list dq_threshold_percent dq_min_failed_items now)
      | _ => (.nonListData, [])

/-- Unfolding of `extract_and_store` when the response carries a non-empty
record list. -/
theorem extract_and_store_of_list (city : String) (data : List (String × JVal))
    (ld : LogicalDate) (t : ℚ) (m : Int) (now : String) (raw : List JVal)
    (hl : getField data "list" = some (.arr raw)) (hne : raw ≠ []) :
    extract_and_store city data ld t m now =
      runGate city data ld (validate_data_batch raw t m now) := by
  have hf : pyFalsy (.arr raw) = false := by
    cases raw with
    | nil => exact absurd rfl hne
    | cons r rs => rfl
  simp only [extract_and_store, hl, hf, Bool.false_eq_true, if_false]

/-- S3 bucket contents, modelled as an association list from keys to stored
JSON payloads. -/
def S3Store : Type := List (String × JVal)

/-- Lookup of a stored object by key. -/
def s3lookup (st : S3Store) (k : String) : Option JVal :=
  getField st k

/-- Models `S3Service.save_dict_as_json` (`s3_client.py`) at the store level:
`put_object` overwrites the object at the key. -/
def s3put (st : S3Store) (k : String) (v : JVal) : S3Store :=
  (k, v) :: st.filter (fun p => p.1 ≠ k)

/-- Modelled from the spec: `S3Service.delete_object`, which `extract.py`
calls but whose definition is not part of the sources (only its callers and
test mocks are).  Per the spec's storage interface, `delete(key)` removes the
object and is idempotent even if the key is absent (a total no-op, it never
raises). -/
def s3delete (st : S3Store) (k : String) : S3Store :=
  st.filter (fun p => p.1 ≠ k)

/-- Apply one traced S3 event to the store. -/
def applyEvent (st : S3Store) : S3Event → S3Store
  | .put k v => s3put st k v
  | .delete k => s3delete st k

/-- Payloads written to the given key, in trace order. -/
def putsTo (evs : List S3Event) (k : String) : List JVal :=
  evs.filterMap (fun e =>
    match e with
    | .put k2 p => if k2 = k then some p else none
    | .delete _ => none)

/-- Field lookup on a JSON object value. -/
def objLookup (v : JVal) (k : String) : Option JVal :=
  match v with
  | .obj fs => getField fs k
  | _ => none

/-- Status string stored under `metadata.status` of a payload. -/
def payloadStatus (p : JVal) : Option JVal :=
  (objLookup p "metadata").bind (fun m => objLookup m "status")

/-- Quarantine projection of one record, as appended inside the validation
loop: `none` for a valid record, the quarantine entry for a failing one. -/
def quarProj (now : String) (r : JVal) : Option QuarantineEntry :=
  match model_validate r with
  | .ok _ => none
  | .error e => some ⟨e, r, now⟩

/-- Sample raw record accepted by the schema (used to instantiate the
universally quantified theorems at concrete inputs). -/
def sampleGoodFields : List (String × JVal) :=
  [("dt", .int 1700000000),
   ("main", .obj [("aqi", .int 2)]),
   ("components", .obj [
     ("co", .float 1), ("no", .float 0), ("no2", .float 0), ("o3", .float 0),
     ("so2", .float 0), ("pm2_5", .float 0), ("pm10", .float 0), ("nh3", .float 0)])]

/-- Sample raw record accepted by the schema. -/
def sampleGoodRec : JVal := .obj sampleGoodFields

/-- Sample raw record rejected by the schema (all three fields missing). -/
def sampleBadRec : JVal := .obj []

/-- Both components of the validation loop are order-preserving projections
(`filterMap`) of the input batch. -/
theorem processRecords_eq_filterMap (now : String) (raw : List JVal) :
    (processRecords now raw).1 = raw.filterMap (fun r => (model_validate r).toOption) ∧
      (processRecords now raw).2 = raw.filterMap (quarProj now) := by
  induction raw with
  | nil => exact ⟨rfl, rfl⟩
  | cons r rs ih =>
    simp only [processRecords, List.filterMap_cons]
    cases hv : model_validate r with
    | ok m => simp [Except.toOption, quarProj, hv, ih.1, ih.2]
    | error e => simp [Except.toOption, quarProj, hv, ih.1, ih.2]

/-- Each record lands in exactly one of the two output sequences, so the
lengths add up to the input length. -/
theorem processRecords_length (now : String) (raw : List JVal) :
    (processRecords now raw).1.length + (processRecords now raw).2.length = raw.length := by
  induction raw with
  | nil => rfl
  | cons r rs ih =>
    simp only [processRecords]
    cases hv : model_validate r with
    | ok m => simpa [hv] using by omega
    | error e => simpa [hv] using by omega

/-- Sample logical date used to instantiate theorems at concrete inputs. -/
def sampleDate : LogicalDate := ⟨2024, 3, 7, 1709769600⟩

/-- Zero-padding to two digits, as the claim words it. -/
def specPad2 (n : Nat) : String :=
  if n < 10 then "0" ++ toString n else toString n

/-- Partition path template written from the spec:
`city={city}/year={YYYY}/month={MM}/day={DD}/{epoch_seconds}.json` with month
and day zero-padded to two digits and `{epoch_seconds}` the integer Unix
timestamp of the logical date. -/
def specBasePath (city : String) (ld : LogicalDate) : String :=
  "city=" ++ city ++ "/year=" ++ toString ld.year ++ "/month=" ++ specPad2 ld.month ++
    "/day=" ++ specPad2 ld.day ++ "/" ++ toString ld.epochSeconds ++ ".json"

/-- Valid-data key template written from the spec. -/
def specValidKey (city : String) (ld : LogicalDate) : String :=
  "bronze/air_pollution/" ++ specBasePath city ld

/-- Quarantine key template written from the spec: identical except for the
leading segment. -/
def specQuarantineKey (city : String) (ld : LogicalDate) : String :=
  "bronze/air_pollution_quarantine/" ++ specBasePath city ld

/-- The two partition keys always differ (their fixed leading segments have
different lengths). -/
theorem validKey_ne_quarantineKey (city : String) (ld : LogicalDate) :
    validKey city ld ≠ quarantineKey city ld := by
  intro h
  have hlen := congrArg String.length h
  rw [validKey, quarantineKey] at hlen
  simp only [String.length_append] at hlen
  have h1 : ("bronze/air_pollution/").length = 21 := rfl
  have h2 : ("bronze/air_pollution_quarantine/").length = 32 := rfl
  rw [h1, h2] at hlen
  omega

/-- C8: the storage keys are pure functions of (city, logical date) matching
the spec's templates: the valid-data key is
`bronze/air_pollution/city={city}/year={Y}/month={MM}/day={DD}/{epoch}.json`
(month and day zero-padded to two digits), the quarantine key is identical
except for the leading segment, and equal inputs yield equal key strings. -/
theorem partition_key_pure_and_matches_template (city : String) (ld : LogicalDate) :
    validKey city ld = specValidKey city ld ∧
      quarantineKey city ld = specQuarantineKey city ld ∧
      (∀ (c2 : String) (ld2 : LogicalDate), city = c2 → ld = ld2 →
        validKey city ld = validKey c2 ld2 ∧ quarantineKey city ld = quarantineKey c2 ld2) := by
  refine ⟨rfl, rfl, ?_⟩
  rintro c2 ld2 rfl rfl
  exact ⟨rfl, rfl⟩

/-- C8 witness: the key templates at a concrete city and logical date, with
the determinism conjunct discharged at equal concrete inputs. -/
theorem partition_key_pure_and_matches_template_witness :
    (validKey "Berlin" sampleDate = specValidKey "Berlin" sampleDate ∧
        quarantineKey "Berlin" sampleDate = specQuarantineKey "Berlin" sampleDate ∧
        (∀ (c2 : String) (ld2 : LogicalDate), "Berlin" = c2 → sampleDate = ld2 →
          validKey "Berlin" sampleDate = validKey c2 ld2 ∧
            quarantineKey "Berlin" sampleDate = quarantineKey c2 ld2)) ∧
      (validKey "Berlin" sampleDate = validKey "Berlin" sampleDate ∧
        quarantineKey "Berlin" sampleDate = quarantineKey "Berlin" sampleDate) ∧
      validKey "Berlin" sampleDate =
        "bronze/air_pollution/city=Berlin/year=2024/month=03/day=07/1709769600.json" :=
  ⟨partition_key_pure_and_matches_template "Berlin" sampleDate,
    (partition_key_pure_and_matches_template "Berlin" sampleDate).2.2 "Berlin" sampleDate
      rfl rfl, rfl⟩

/-- Claim-side check for a required integer field: present, coercible to an
integer, within `[lo, hi]`. -/
def intFieldOk (v : Option JVal) (lo hi : Int) : Bool :=
  match v with
  | none => false
  | some jv =>
    match coerceInt jv with
    | none => false
    | some n => decide (lo ≤ n ∧ n ≤ hi)

/-- Claim-side check for a required float field: present, coercible to a
number, non-negative. -/
def floatFieldOk (v : Option JVal) : Bool :=
  match v with
  | none => false
  | some jv =>
    match coerceFloat jv with
    | none => false
    | some q => decide (0 ≤ q)

/-- Acceptance predicate written from the claim: a record is accepted iff
`dt` is a required integer in `[946681200, 2524604400]`, the AQI
(`main.aqi`) is a required integer in `[1, 5]`, each of the eight pollutant
fields of `components` is a required non-negative number, and any other
field is simply ignored (the predicate reads nothing else). -/
def recordAcceptedSpec : JVal → Bool
  | .obj fs =>
    intFieldOk (getField fs "dt") 946681200 2524604400 &&
      (match getField fs "main" with
       | some (.obj ms) => intFieldOk (getField ms "aqi") 1 5
       | _ => false) &&
      (match getField fs "components" with
       | some (.obj cs) =>
         floatFieldOk (getField cs "co") && floatFieldOk (getField cs "no") &&
           floatFieldOk (getField cs "no2") && floatFieldOk (getField cs "o3") &&
           floatFieldOk (getField cs "so2") && floatFieldOk (getField cs "pm2_5") &&
           floatFieldOk (getField cs "pm10") && floatFieldOk (getField cs "nh3")
       | _ => false)
  | _ => false

/-- Success of `checkInt` coincides with the claim-side integer check. -/
theorem exOk_checkInt (name : String) (v : Option JVal) (lo hi : Int) :
    exOk (checkInt name v lo hi) = intFieldOk v lo hi := by
  cases v with
  | none => rfl
  | some jv =>
    simp only [checkInt, intFieldOk]
    cases h : coerceInt jv with
    | none => simp [exOk]
    | some n =>
      by_cases hb : lo ≤ n ∧ n ≤ hi
      · simp [hb, exOk]
      · simp [hb, exOk]

/-- Success of `checkFloat` coincides with the claim-side float check. -/
theorem exOk_checkFloat (name : String) (v : Option JVal) :
    exOk (checkFloat name v) = floatFieldOk v := by
  cases v with
  | none => rfl
  | some jv =>
    simp only [checkFloat, floatFieldOk]
    cases h : coerceFloat jv with
    | none => simp [exOk]
    | some q =>
      by_cases hb : 0 ≤ q
      · simp [hb, exOk]
      · simp [hb, exOk]

/-- Mapping the success value does not change whether a check succeeded. -/
theorem exOk_map {α β : Type} (f : α → β) (e : Except String α) :
    exOk (e.map f) = exOk e := by
  cases e <;> rfl

/-- Success of the combined eight-field check is the conjunction of the
individual successes. -/
theorem exOk_combine8 (a b c d e f g h : Except String ℚ) :
    exOk (combine8 a b c d e f g h) =
      (exOk a && exOk b && exOk c && exOk d && exOk e && exOk f && exOk g && exOk h) := by
  cases a <;> cases b <;> cases c <;> cases d <;> cases e <;> cases f <;> cases g <;>
    cases h <;> rfl

/-- Success of `checkMain` coincides with the claim-side AQI check. -/
theorem exOk_checkMain (v : Option JVal) :
    exOk (checkMain v) =
      (match v with
       | some (.obj ms) => intFieldOk (getField ms "aqi") 1 5
       | _ => false) := by
  cases v with
  | none => rfl
  | some jv =>
    cases jv <;> simp only [checkMain] <;> try rfl
    rw [exOk_map, exOk_checkInt]

/-- Success of `checkComponents` coincides with the claim-side pollutant
checks. -/
theorem exOk_checkComponents (v : Option JVal) :
    exOk (checkComponents v) =
      (match v with
       | some (.obj cs) =>
         floatFieldOk (getField cs "co") && floatFieldOk (getField cs "no") &&
           floatFieldOk (getField cs "no2") && floatFieldOk (getField cs "o3") &&
           floatFieldOk (getField cs "so2") && floatFieldOk (getField cs "pm2_5") &&
           floatFieldOk (getField cs "pm10") && floatFieldOk (getField cs "nh3")
       | _ => false) := by
  cases v with
  | none => rfl
  | some jv =>
    cases jv <;> simp only [checkComponents] <;> try rfl
    rw [exOk_combine8]
    simp only [exOk_checkFloat, Bool.and_assoc]

/-- Success of `model_validate` on an object is the conjunction of the three
top-level field checks. -/
theorem exOk_model_validate_obj (fs : List (String × JVal)) :
    exOk (model_validate (.obj fs)) =
      (exOk (checkInt "dt" (getField fs "dt") 946681200 2524604400) &&
        exOk (checkMain (getField fs "main")) &&
        exOk (checkComponents (getField fs "components"))) := by
  cases hd : checkInt "dt" (getField fs "dt") 946681200 2524604400 <;>
    cases hm : checkMain (getField fs "main") <;>
    cases hc : checkComponents (getField fs "components") <;>
    simp [model_validate, hd, hm, hc, exOk]

/-- Prepending a binding for a different key does not change a lookup. -/
theorem getField_cons_ne {k key : String} (x : JVal) (fs : List (String × JVal))
    (h : key ≠ k) : getField ((k, x) :: fs) key = getField fs key := by
  unfold getField
  rw [List.find?_cons]
  have hb : ((k, x).1 == key) = false := by
    simp [beq_eq_false_iff_ne]
    exact Ne.symm h
  rw [hb]

/-- C3: the Record Validator accepts a raw record exactly under the claim's
conditions (`recordAcceptedSpec`): required coercible `dt` in its epoch
bound, required coercible AQI in `[1, 5]`, eight required non-negative
pollutant numbers — and adding an unknown extra field never changes the
verdict. -/
theorem record_validator_accepts_iff_spec :
    (∀ v : JVal, exOk (model_validate v) = recordAcceptedSpec v) ∧
      (∀ (fs : List (String × JVal)) (k : String) (x : JVal),
        k ≠ "dt" → k ≠ "main" → k ≠ "components" →
          exOk (model_validate (.obj ((k, x) :: fs))) = exOk (model_validate (.obj fs))) := by
  have main : ∀ v : JVal, exOk (model_validate v) = recordAcceptedSpec v := by
    intro v
    cases v <;> try rfl
    rw [exOk_model_validate_obj]
    simp only [recordAcceptedSpec, exOk_checkInt, exOk_checkMain, exOk_checkComponents]
  refine ⟨main, ?_⟩
  intro fs k x hdt hmain hcomp
  rw [exOk_model_validate_obj, exOk_model_validate_obj,
    getField_cons_ne x fs (Ne.symm hdt), getField_cons_ne x fs (Ne.symm hmain),
    getField_cons_ne x fs (Ne.symm hcomp)]

/-- C3 witness: the sample valid record is accepted, and adding the unknown
extra field `"extra"` leaves the verdict unchanged. -/
theorem record_validator_accepts_iff_spec_witness :
    (exOk (model_validate sampleGoodRec) = recordAcceptedSpec sampleGoodRec) ∧
      (("extra" : String) ≠ "dt" ∧ ("extra" : String) ≠ "main" ∧
        ("extra" : String) ≠ "components") ∧
      exOk (model_validate (.obj (("extra", .int 7) :: sampleGoodFields))) =
        exOk (model_validate (.obj sampleGoodFields)) :=
  ⟨record_validator_accepts_iff_spec.1 sampleGoodRec,
    ⟨by decide, by decide, by decide⟩,
    record_validator_accepts_iff_spec.2 sampleGoodFields "extra" (.int 7)
      (by decide) (by decide) (by decide)⟩

/-- C1: for every non-empty batch and parameters `threshold_percent` and
`min_failed_items`, `validate_data_batch` sets `is_critical_failure` to true
iff `(failure_rate > threshold_percent AND failed_count >= min_failed_items)
OR valid_count == 0`, with `failure_rate = failed_count / total_count * 100`. -/
theorem critical_flag_iff_gate_breach (raw : List JVal) (t : ℚ) (m : Int) (now : String)
    (h : raw ≠ []) :
    (validate_data_batch raw t m now).is_critical_failure = true ↔
      ((((validate_data_batch raw t m now).quarantine_records.length : ℚ) /
            (raw.length : ℚ) * 100 > t) ∧
          ((validate_data_batch raw t m now).quarantine_records.length : Int) ≥ m) ∨
        (validate_data_batch raw t m now).valid_records.length = 0 := by
  rw [validate_data_batch_of_ne_nil raw t m now h]
  simp [isCriticalGate, failureRate]

/-- C1 witness: a concrete one-record batch where the gate fires. -/
theorem critical_flag_iff_gate_breach_witness :
    ([sampleBadRec] ≠ ([] : List JVal)) ∧
      ((validate_data_batch [sampleBadRec] 50 0 "T").is_critical_failure = true ↔
        ((((validate_data_batch [sampleBadRec] 50 0 "T").quarantine_records.length : ℚ) /
              ([sampleBadRec].length : ℚ) * 100 > 50) ∧
            ((validate_data_batch [sampleBadRec] 50 0 "T").quarantine_records.length : Int) ≥ 0) ∨
          (validate_data_batch [sampleBadRec] 50 0 "T").valid_records.length = 0) :=
  ⟨List.cons_ne_nil _ _,
    critical_flag_iff_gate_breach [sampleBadRec] 50 0 "T" (List.cons_ne_nil _ _)⟩

/-- C2: for every non-empty batch, each record is classified as exactly one
of valid or quarantined (the lengths add up to the input length), and both
output sequences are order-preserving projections (`filterMap`) of the input
batch. -/
theorem partition_preserves_order_and_count (raw : List JVal) (t : ℚ) (m : Int) (now : String)
    (h : raw ≠ []) :
    (validate_data_batch raw t m now).valid_records.length +
        (validate_data_batch raw t m now).quarantine_records.length = raw.length ∧
      (validate_data_batch raw t m now).valid_records =
        raw.filterMap (fun r => (model_validate r).toOption) ∧
      (validate_data_batch raw t m now).quarantine_records = raw.filterMap (quarProj now) := by
  rw [validate_data_batch_of_ne_nil raw t m now h]
  exact ⟨processRecords_length now raw, (processRecords_eq_filterMap now raw).1,
    (processRecords_eq_filterMap now raw).2⟩

/-- C2 witness: a concrete two-record batch, one valid and one quarantined. -/
theorem partition_preserves_order_and_count_witness :
    ([sampleGoodRec, sampleBadRec] ≠ ([] : List JVal)) ∧
      (validate_data_batch [sampleGoodRec, sampleBadRec] 20 5 "T").valid_records.length +
          (validate_data_batch [sampleGoodRec, sampleBadRec] 20 5 "T").quarantine_records.length =
            [sampleGoodRec, sampleBadRec].length ∧
      (validate_data_batch [sampleGoodRec, sampleBadRec] 20 5 "T").valid_records =
        [sampleGoodRec, sampleBadRec].filterMap (fun r => (model_validate r).toOption) ∧
      (validate_data_batch [sampleGoodRec, sampleBadRec] 20 5 "T").quarantine_records =
        [sampleGoodRec, sampleBadRec].filterMap (quarProj "T") :=
  ⟨List.cons_ne_nil _ _,
    partition_preserves_order_and_count [sampleGoodRec, sampleBadRec] 20 5 "T"
      (List.cons_ne_nil _ _)⟩

/-- C7: the empty input batch yields empty valid and quarantine sequences,
the supplied current timestamp, `is_critical_failure = false` and an empty
reason; the rate division is short-circuited by the early return, and the
total-failure override does not fire. -/
theorem empty_batch_returns_empty_result (t : ℚ) (m : Int) (now : String) :
    validate_data_batch [] t m now =
      { valid_records := [], quarantine_records := [], ts_validation := now,
        is_critical_failure := false, failure_reason := "" } := rfl

/-- C10: every batch flagged critical — including those critical solely via
the total-failure override — gets the one fixed reason template
`mkReason`, which begins with `"Threshold exceeded: "` and names the
computed rate, the threshold and the minimum-items parameter; there is no
distinct total-failure wording. -/
theorem critical_reason_single_template (raw : List JVal) (t : ℚ) (m : Int) (now : String)
    (h : raw ≠ [])
    (hcrit : (validate_data_batch raw t m now).is_critical_failure = true) :
    (validate_data_batch raw t m now).failure_reason =
        mkReason (failureRate (validate_data_batch raw t m now).quarantine_records.length
          raw.length) t m ∧
      ∃ s, (validate_data_batch raw t m now).failure_reason = "Threshold exceeded: " ++ s := by
  rw [validate_data_batch_of_ne_nil raw t m now h] at hcrit ⊢
  simp only at hcrit ⊢
  rw [if_pos hcrit]
  refine ⟨rfl, fmt2 (failureRate (processRecords now raw).2.length raw.length) ++
    ("% failures (Threshold: " ++ (fmtPyFloat t ++ ("%, MinItems: " ++
      (toString m ++ ")")))), ?_⟩
  simp [mkReason, String.append_assoc]

/-- C10 witness: a one-record batch that is critical solely because no
record validated (`valid_count == 0`): the rate `100` is not above the
threshold `200` and `1 < 5` failed items, yet the reason still reads
"Threshold exceeded". -/
theorem critical_reason_single_template_witness :
    ([sampleBadRec] ≠ ([] : List JVal)) ∧
      ((validate_data_batch [sampleBadRec] 200 5 "T").is_critical_failure = true) ∧
      ((validate_data_batch [sampleBadRec] 200 5 "T").failure_reason =
          mkReason (failureRate
            (validate_data_batch [sampleBadRec] 200 5 "T").quarantine_records.length
            [sampleBadRec].length) 200 5 ∧
        ∃ s, (validate_data_batch [sampleBadRec] 200 5 "T").failure_reason =
          "Threshold exceeded: " ++ s) := by
  have h : [sampleBadRec] ≠ ([] : List JVal) := List.cons_ne_nil _ _
  have hc : (validate_data_batch [sampleBadRec] 200 5 "T").is_critical_failure = true := by
    rw [validate_data_batch_of_ne_nil _ _ _ _ h]
    show isCriticalGate 0 1 1 200 5 = true
    norm_num [isCriticalGate, failureRate]
  exact ⟨h, hc, critical_reason_single_template [sampleBadRec] 200 5 "T" h hc⟩

/-- Deleting a key that is not in the store is a no-op. -/
theorem s3delete_absent (st : S3Store) (k : String) (h : s3lookup st k = none) :
    s3delete st k = st := by
  have hfind : st.find? (fun p => p.1 == k) = none := by
    have := h
    unfold s3lookup getField at this
    exact Option.map_eq_none.mp this
  unfold s3delete
  apply List.filter_eq_self.mpr
  intro a ha
  have hne := List.find?_eq_none.mp hfind a ha
  simpa using hne

/-- C9: whenever validation yields zero quarantine entries, the orchestrator
writes no quarantine payload and instead emits a delete of the quarantine
key as its first side effect, and that delete is an idempotent no-op on a
store that does not hold the key (the modelled `delete_object` is total and
never raises). -/
theorem empty_quarantine_deletes_stale_artifact (city : String) (data : List (String × JVal))
    (ld : LogicalDate) (t : ℚ) (m : Int) (now : String) (raw : List JVal) (st : S3Store)
    (hl : getField data "list" = some (.arr raw)) (hne : raw ≠ [])
    (hq : (validate_data_batch raw t m now).quarantine_records = []) :
    (extract_and_store city data ld t m now).2.head? =
        some (S3Event.delete (quarantineKey city ld)) ∧
      (∀ p, S3Event.put (quarantineKey city ld) p ∉ (extract_and_store city data ld t m now).2) ∧
      (s3lookup st (quarantineKey city ld) = none →
        s3delete st (quarantineKey city ld) = st) := by
  rw [extract_and_store_of_list city data ld t m now raw hl hne]
  have hqe : quarEvent city ld (validate_data_batch raw t m now) =
      S3Event.delete (quarantineKey city ld) := by
    unfold quarEvent
    rw [hq]
    rfl
  refine ⟨?_, ?_, fun hst => s3delete_absent st (quarantineKey city ld) hst⟩
  · unfold runGate
    rw [hqe]
    by_cases hc : (validate_data_batch raw t m now).is_critical_failure <;> simp [hc]
  · intro p
    unfold runGate
    rw [hqe]
    by_cases hc : (validate_data_batch raw t m now).is_critical_failure <;>
      simp [hc, S3Event.put.injEq]
    exact fun habs _ => validKey_ne_quarantineKey city ld habs.symm

/-- C9 witness: a concrete all-valid run on an empty store. -/
theorem empty_quarantine_deletes_stale_artifact_witness :
    (getField [(("list" : String), JVal.arr [sampleGoodRec])] "list" =
        some (.arr [sampleGoodRec])) ∧
      ([sampleGoodRec] ≠ ([] : List JVal)) ∧
      ((validate_data_batch [sampleGoodRec] 20 5 "T").quarantine_records = []) ∧
      ((extract_and_store "Berlin" [("list", JVal.arr [sampleGoodRec])] sampleDate 20 5 "T").2.head? =
        some (S3Event.delete (quarantineKey "Berlin" sampleDate)) ∧
      (∀ p, S3Event.put (quarantineKey "Berlin" sampleDate) p ∉
        (extract_and_store "Berlin" [("list", JVal.arr [sampleGoodRec])] sampleDate 20 5 "T").2) ∧
      (s3lookup ([] : S3Store) (quarantineKey "Berlin" sampleDate) = none →
        s3delete ([] : S3Store) (quarantineKey "Berlin" sampleDate) = ([] : S3Store))) :=
  ⟨rfl, List.cons_ne_nil _ _, rfl,
    empty_quarantine_deletes_stale_artifact "Berlin" [("list", JVal.arr [sampleGoodRec])]
      sampleDate 20 5 "T" [sampleGoodRec] ([] : S3Store) rfl (List.cons_ne_nil _ _) rfl⟩

/-- The quarantine event never writes to the valid-data key: it is either a
delete or a put addressed to the quarantine key. -/
theorem quarEvent_ne_put_validKey (city : String) (ld : LogicalDate) (vr : ValidationResult)
    (p : JVal) : quarEvent city ld vr ≠ S3Event.put (validKey city ld) p := by
  unfold quarEvent
  by_cases hq : vr.quarantine_records.isEmpty <;> simp [hq, S3Event.put.injEq]
  exact fun habs _ => validKey_ne_quarantineKey city ld habs.symm

/-- C6: in every invocation reaching the validation gate, the quarantine
write-or-delete is the first side effect of the trace (so it precedes both
the fatal signal and the valid-data write); on a critical batch the outcome
is the fatal failure carrying the reason string, the trace consists of the
already-persisted quarantine event only, and no valid-data write occurs. -/
theorem quarantine_persisted_before_failure_signal (city : String)
    (data : List (String × JVal)) (ld : LogicalDate) (t : ℚ) (m : Int) (now : String)
    (raw : List JVal) (hl : getField data "list" = some (.arr raw)) (hne : raw ≠ []) :
    (extract_and_store city data ld t m now).2.head? =
        some (quarEvent city ld (validate_data_batch raw t m now)) ∧
      ((validate_data_batch raw t m now).is_critical_failure = true →
        (extract_and_store city data ld t m now).1 =
            RunOutcome.failed (validate_data_batch raw t m now).failure_reason ∧
          (extract_and_store city data ld t m now).2 =
            [quarEvent city ld (validate_data_batch raw t m now)] ∧
          ∀ p, S3Event.put (validKey city ld) p ∉ (extract_and_store city data ld t m now).2) ∧
      ((validate_data_batch raw t m now).is_critical_failure = false →
        (extract_and_store city data ld t m now).2 =
          [quarEvent city ld (validate_data_batch raw t m now),
            S3Event.put (validKey city ld)
              (validPayload data (validate_data_batch raw t m now))]) := by
  rw [extract_and_store_of_list city data ld t m now raw hl hne]
  unfold runGate
  by_cases hc : (validate_data_batch raw t m now).is_critical_failure
  · rw [if_pos hc]
    refine ⟨rfl, fun _ => ⟨rfl, rfl, fun p hp => ?_⟩, fun habs => absurd hc (by simp [habs])⟩
    rcases List.mem_singleton.mp hp with h
    exact quarEvent_ne_put_validKey city ld (validate_data_batch raw t m now) p h.symm
  · rw [if_neg hc]
    exact ⟨rfl, fun habs => absurd habs (by simp [hc]), fun _ => rfl⟩

/-- C6 witness: a concrete critical run (every record fails, so the gate
fires via the total-failure override) and its trace. -/
theorem quarantine_persisted_before_failure_signal_witness :
    (getField [(("list" : String), JVal.arr [sampleBadRec])] "list" =
        some (.arr [sampleBadRec])) ∧
      ([sampleBadRec] ≠ ([] : List JVal)) ∧
      ((extract_and_store "Berlin" [("list", JVal.arr [sampleBadRec])] sampleDate 20 0 "T").2.head? =
          some (quarEvent "Berlin" sampleDate (validate_data_batch [sampleBadRec] 20 0 "T")) ∧
        ((validate_data_batch [sampleBadRec] 20 0 "T").is_critical_failure = true →
          (extract_and_store "Berlin" [("list", JVal.arr [sampleBadRec])] sampleDate 20 0 "T").1 =
              RunOutcome.failed (validate_data_batch [sampleBadRec] 20 0 "T").failure_reason ∧
            (extract_and_store "Berlin" [("list", JVal.arr [sampleBadRec])] sampleDate 20 0 "T").2 =
              [quarEvent "Berlin" sampleDate (validate_data_batch [sampleBadRec] 20 0 "T")] ∧
            ∀ p, S3Event.put (validKey "Berlin" sampleDate) p ∉
              (extract_and_store "Berlin" [("list", JVal.arr [sampleBadRec])] sampleDate 20 0 "T").2) ∧
        ((validate_data_batch [sampleBadRec] 20 0 "T").is_critical_failure = false →
          (extract_and_store "Berlin" [("list", JVal.arr [sampleBadRec])] sampleDate 20 0 "T").2 =
            [quarEvent "Berlin" sampleDate (validate_data_batch [sampleBadRec] 20 0 "T"),
              S3Event.put (validKey "Berlin" sampleDate)
                (validPayload [("list", JVal.arr [sampleBadRec])]
                  (validate_data_batch [sampleBadRec] 20 0 "T"))])) ∧
      (validate_data_batch [sampleBadRec] 20 0 "T").is_critical_failure = true :=
  ⟨rfl, List.cons_ne_nil _ _,
    quarantine_persisted_before_failure_signal "Berlin" [("list", JVal.arr [sampleBadRec])]
      sampleDate 20 0 "T" [sampleBadRec] rfl (List.cons_ne_nil _ _),
    by
      rw [validate_data_batch_of_ne_nil _ _ _ _ (List.cons_ne_nil _ _)]
      show isCriticalGate 0 1 1 20 0 = true
      norm_num [isCriticalGate, failureRate]⟩

/-- Concrete API response producing a partial failure: one valid and one
invalid record, below both gate thresholds. -/
def mixedBatchRunData : List (String × JVal) :=
  [("coord", .obj [("lon", .float 50), ("lat", .float 50)]),
   ("list", .arr [sampleGoodRec, sampleBadRec])]

/-- C4 (amended): whenever extraction produces at least one quarantine
entry, the first side effect writes to the quarantine key the payload
`{"metadata": {"status", "failure_reason", "processed_at"}, "records"}`
where status is `"critical_failure"` when the gate flagged critical and the
source's literal `"partial_faiilure"` (sic) otherwise, failure_reason is the
gate's reason string, processed_at the shared validation timestamp, and
records the ordered quarantine entries. -/
theorem quarantine_payload_shape_amended (city : String) (data : List (String × JVal))
    (ld : LogicalDate) (t : ℚ) (m : Int) (now : String) (raw : List JVal)
    (hl : getField data "list" = some (.arr raw)) (hne : raw ≠ [])
    (hq : (validate_data_batch raw t m now).quarantine_records ≠ []) :
    (extract_and_store city data ld t m now).2.head? =
      some (S3Event.put (quarantineKey city ld)
        (JVal.obj [("metadata", JVal.obj [
            ("status", JVal.str (if (validate_data_batch raw t m now).is_critical_failure
                                 then "critical_failure" else "partial_faiilure")),
            ("failure_reason", JVal.str (validate_data_batch raw t m now).failure_reason),
            ("processed_at", JVal.str (validate_data_batch raw t m now).ts_validation)]),
          ("records", JVal.arr
            ((validate_data_batch raw t m now).quarantine_records.map quarEntryToJson))])) := by
  rw [extract_and_store_of_list city data ld t m now raw hl hne]
  have hie : (validate_data_batch raw t m now).quarantine_records.isEmpty = false := by
    cases h : (validate_data_batch raw t m now).quarantine_records with
    | nil => exact absurd h hq
    | cons a as => rfl
  unfold runGate quarEvent
  simp only [hie, Bool.false_eq_true, if_false]
  cases hc : (validate_data_batch raw t m now).is_critical_failure
  · simp only [Bool.false_eq_true, if_false, List.head?_cons, quarantinePayload, hc]
  · simp only [if_true, List.head?_cons, quarantinePayload, hc]

/-- C4 witness: the partial-failure run, with every hypothesis discharged. -/
theorem quarantine_payload_shape_amended_witness :
    (getField mixedBatchRunData "list" = some (.arr [sampleGoodRec, sampleBadRec])) ∧
      ([sampleGoodRec, sampleBadRec] ≠ ([] : List JVal)) ∧
      ((validate_data_batch [sampleGoodRec, sampleBadRec] 50 2 "T").quarantine_records ≠ []) ∧
      (extract_and_store "Berlin" mixedBatchRunData sampleDate 50 2 "T").2.head? =
        some (S3Event.put (quarantineKey "Berlin" sampleDate)
          (JVal.obj [("metadata", JVal.obj [
              ("status", JVal.str
                (if (validate_data_batch [sampleGoodRec, sampleBadRec] 50 2 "T").is_critical_failure
                 then "critical_failure" else "partial_faiilure")),
              ("failure_reason", JVal.str
                (validate_data_batch [sampleGoodRec, sampleBadRec] 50 2 "T").failure_reason),
              ("processed_at", JVal.str
                (validate_data_batch [sampleGoodRec, sampleBadRec] 50 2 "T").ts_validation)]),
            ("records", JVal.arr
              ((validate_data_batch [sampleGoodRec, sampleBadRec] 50 2 "T").quarantine_records.map
                quarEntryToJson))])) := by
  have hq : (validate_data_batch [sampleGoodRec, sampleBadRec] 50 2 "T").quarantine_records ≠ [] := by
    intro h
    rw [show (validate_data_batch [sampleGoodRec, sampleBadRec] 50 2 "T").quarantine_records =
        [⟨["dt: field required", "main: field required", "components: field required"],
          sampleBadRec, "T"⟩] from rfl] at h
    exact List.cons_ne_nil _ _ h
  exact ⟨rfl, List.cons_ne_nil _ _, hq,
    quarantine_payload_shape_amended "Berlin" mixedBatchRunData sampleDate 50 2 "T"
      [sampleGoodRec, sampleBadRec] rfl (List.cons_ne_nil _ _) hq⟩

/-- C4 counterexample: on the concrete non-critical partial-failure run the
status literal actually written is `"partial_faiilure"`, not the claim's
`"partial_failure"`. -/
theorem quarantine_status_typo_counterexample :
    payloadStatus (quarantinePayload (validate_data_batch [sampleGoodRec, sampleBadRec] 50 2 "T")) =
        some (JVal.str "partial_faiilure") ∧
      (extract_and_store "Berlin" mixedBatchRunData sampleDate 50 2 "T").2.head? =
        some (S3Event.put (quarantineKey "Berlin" sampleDate)
          (quarantinePayload (validate_data_batch [sampleGoodRec, sampleBadRec] 50 2 "T"))) ∧
      JVal.str "partial_faiilure" ≠ JVal.str "partial_failure" := by
  have hne : [sampleGoodRec, sampleBadRec] ≠ ([] : List JVal) := List.cons_ne_nil _ _
  have hcrit : (validate_data_batch [sampleGoodRec, sampleBadRec] 50 2 "T").is_critical_failure
      = false := by
    rw [validate_data_batch_of_ne_nil _ _ _ _ hne]
    show isCriticalGate 1 1 2 50 2 = false
    norm_num [isCriticalGate, failureRate]
  have hqrec : (validate_data_batch [sampleGoodRec, sampleBadRec] 50 2 "T").quarantine_records =
      [⟨["dt: field required", "main: field required", "components: field required"],
        sampleBadRec, "T"⟩] := rfl
  refine ⟨?_, ?_, by simp⟩
  · have h1 : payloadStatus
        (quarantinePayload (validate_data_batch [sampleGoodRec, sampleBadRec] 50 2 "T")) =
        some (JVal.str
          (if (validate_data_batch [sampleGoodRec, sampleBadRec] 50 2 "T").is_critical_failure
           then "critical_failure" else "partial_faiilure")) := rfl
    rw [h1, hcrit]
    simp only [Bool.false_eq_true, if_false]
  · rw [extract_and_store_of_list "Berlin" mixedBatchRunData sampleDate 50 2 "T"
      [sampleGoodRec, sampleBadRec] rfl hne]
    unfold runGate
    simp only [hcrit, Bool.false_eq_true, if_false]
    rw [List.head?_cons]
    have hie : (validate_data_batch [sampleGoodRec, sampleBadRec] 50 2 "T").quarantine_records.isEmpty
        = false := by
      rw [hqrec]
      rfl
    unfold quarEvent
    simp only [hie, Bool.false_eq_true, if_false]

/-- Concrete API response with an extra top-level field `"foo"` alongside
`coord` and a single valid record. -/
def allValidRunData : List (String × JVal) :=
  [("coord", .str "C"), ("foo", .int 1), ("list", .arr [sampleGoodRec])]

/-- C5 (amended): on every non-critical run with a non-empty raw list, the
orchestrator ends its trace with a write to the valid-data key of a payload
holding exactly three fields — `"coord"` set to the original response's
coord value (JSON null when absent), `"list"` set to the ordered
valid-record sequence, and `"metadata"` set to `{"status": "valid"}` — and
returns the valid-data key as its result.  Other top-level response fields
are not carried over. -/
theorem valid_payload_amended (city : String) (data : List (String × JVal))
    (ld : LogicalDate) (t : ℚ) (m : Int) (now : String) (raw : List JVal)
    (hl : getField data "list" = some (.arr raw)) (hne : raw ≠ [])
    (hnc : (validate_data_batch raw t m now).is_critical_failure = false) :
    (extract_and_store city data ld t m now).1 = RunOutcome.succeeded (validKey city ld) ∧
      (extract_and_store city data ld t m now).2.getLast? =
        some (S3Event.put (validKey city ld)
          (JVal.obj [("coord", (getField data "coord").getD JVal.null),
                     ("list", JVal.arr
                       ((validate_data_batch raw t m now).valid_records.map recordToJson)),
                     ("metadata", JVal.obj [("status", JVal.str "valid")])])) := by
  rw [extract_and_store_of_list city data ld t m now raw hl hne]
  unfold runGate
  simp only [hnc, Bool.false_eq_true, if_false]
  exact ⟨trivial, rfl⟩

/-- C5 witness: the all-valid run, with every hypothesis discharged. -/
theorem valid_payload_amended_witness :
    (getField allValidRunData "list" = some (.arr [sampleGoodRec])) ∧
      ([sampleGoodRec] ≠ ([] : List JVal)) ∧
      ((validate_data_batch [sampleGoodRec] 20 5 "T").is_critical_failure = false) ∧
      ((extract_and_store "Berlin" allValidRunData sampleDate 20 5 "T").1 =
          RunOutcome.succeeded (validKey "Berlin" sampleDate) ∧
        (extract_and_store "Berlin" allValidRunData sampleDate 20 5 "T").2.getLast? =
          some (S3Event.put (validKey "Berlin" sampleDate)
            (JVal.obj [("coord", (getField allValidRunData "coord").getD JVal.null),
                       ("list", JVal.arr
                         ((validate_data_batch [sampleGoodRec] 20 5 "T").valid_records.map
                           recordToJson)),
                       ("metadata", JVal.obj [("status", JVal.str "valid")])]))) := by
  have hne : [sampleGoodRec] ≠ ([] : List JVal) := List.cons_ne_nil _ _
  have hnc : (validate_data_batch [sampleGoodRec] 20 5 "T").is_critical_failure = false := by
    rw [validate_data_batch_of_ne_nil _ _ _ _ hne]
    show isCriticalGate 1 0 1 20 5 = false
    norm_num [isCriticalGate, failureRate]
  exact ⟨rfl, hne, hnc,
    valid_payload_amended "Berlin" allValidRunData sampleDate 20 5 "T" [sampleGoodRec]
      rfl hne hnc⟩

/-- C5 counterexample: the concrete response carries the top-level field
`"foo"`, yet the payload written to the valid-data key does not contain it —
the orchestrator does not merge all original top-level fields, only
`coord`. -/
theorem valid_payload_drops_extra_field_counterexample :
    getField allValidRunData "foo" = some (.int 1) ∧
      (extract_and_store "Berlin" allValidRunData sampleDate 20 5 "T").2 =
        [S3Event.delete (quarantineKey "Berlin" sampleDate),
         S3Event.put (validKey "Berlin" sampleDate)
           (validPayload allValidRunData (validate_data_batch [sampleGoodRec] 20 5 "T"))] ∧
      objLookup (validPayload allValidRunData (validate_data_batch [sampleGoodRec] 20 5 "T"))
        "foo" = none := by
  have hne : [sampleGoodRec] ≠ ([] : List JVal) := List.cons_ne_nil _ _
  have hnc : (validate_data_batch [sampleGoodRec] 20 5 "T").is_critical_failure = false := by
    rw [validate_data_batch_of_ne_nil _ _ _ _ hne]
    show isCriticalGate 1 0 1 20 5 = false
    norm_num [isCriticalGate, failureRate]
  refine ⟨rfl, ?_, rfl⟩
  rw [extract_and_store_of_list "Berlin" allValidRunData sampleDate 20 5 "T" [sampleGoodRec]
    rfl hne]
  unfold runGate
  simp only [hnc, Bool.false_eq_true, if_false]
  have hie : (validate_data_batch [sampleGoodRec] 20 5 "T").quarantine_records.isEmpty = true := by
    rw [show (validate_data_batch [sampleGoodRec] 20 5 "T").quarantine_records = [] from rfl]
    rfl
  unfold quarEvent
  simp only [hie, if_true]
